import Mathlib

/-!
Verification of the RCI model core (`rci/model/base.py`): node hierarchy,
value rendering (`toxml`), descriptor rendering (`to_descriptor_xml`),
attribute-qualified request matching (`_tree_match` / `_tree_match_helper`)
and request dispatch (`handle_xml`).  Python runtime failures (TypeError,
AssertionError, AttributeError, ValueError) are modelled with `Except`.
-/

namespace RCI

/-- Kinds of Python runtime errors that the modelled code paths can raise. -/
inductive PyErr where
| typeError
| assertionError
| attributeError
| valueError
deriving DecidableEq

/-- A parsed XML element as exposed by the external ElementTree collaborator:
tag name, attribute pairs in document order, text before the first child,
the ordered child elements, and the tail text that follows this element
inside its parent (`Element.tail`).  Absent text or tail is Python None. -/
inductive XElem where
| mk (tag : String) (attribs : List (String × String)) (text : Option String)
    (children : List XElem) (tail : Option String)

def XElem.tag : XElem → String
| .mk t _ _ _ _ => t

def XElem.attribs : XElem → List (String × String)
| .mk _ a _ _ _ => a

def XElem.text : XElem → Option String
| .mk _ _ tx _ _ => tx

def XElem.children : XElem → List XElem
| .mk _ _ _ cs _ => cs

def XElem.tail : XElem → Option String
| .mk _ _ _ _ tl => tl

/-- RCIAttributeValue: a legal value of an attribute (the weak target_node
reference carried by the Python class is never used when rendering). -/
structure RVal where
  name : String
  desc : String

/-- RCIAttribute: a declared attribute with its optional list of legal
values (Python `values=None` is modelled as `none`). -/
structure RAttr where
  name : String
  desc : String
  values : Option (List RVal)

/-- Descriptor metadata carried by a BranchNode: description plus the
optional dscr_avail, access and format class attributes and the error
catalog (a Python dict modelled as an association list). -/
structure BMeta where
  desc : String
  dscrAvail : Option String
  access : Option String
  dformat : Option String
  errors : List (String × String)

/-- Result shapes a SimpleLeafNode accessor may return: a bare body string,
or a (body, attribute-mapping) pair where either part may be Python None. -/
inductive AVal where
| str (s : String)
| pair (body : Option String) (attribs : Option (List (String × String)))

/-- Signature of a SimpleLeafNode setter (body, attribute mapping). -/
abbrev SetterFn := Option String → Option (List (String × String)) → Option String

/-- The node hierarchy of `rci/model/base.py`.  An accessor is modelled as a
call-indexed function `Nat → AVal` so that successive invocations inside one
render are distinguishable; leaf and simple nodes correspond to instances
constructed with the default class metadata. -/
inductive DevNode where
| branch (name : String) (attrs : List RAttr) (meta : BMeta) (children : List DevNode)
| target (name : String) (desc : String) (attrs : List RAttr)
    (callback : Option (String → String)) (children : List DevNode)
| leaf (name : String) (attrs : List RAttr)
| simple (name : String) (attrs : List RAttr) (accessor : Option (Nat → AVal))
    (setter : Option SetterFn)

def DevNode.name : DevNode → String
| .branch n _ _ _ => n
| .target n _ _ _ _ => n
| .leaf n _ => n
| .simple n _ _ _ => n

def DevNode.attrs : DevNode → List RAttr
| .branch _ a _ _ => a
| .target _ _ a _ _ => a
| .leaf _ a => a
| .simple _ a _ _ => a

/-- Iterating a node in Python (`for child in device_node`) succeeds only for
branch-like nodes, whose `__iter__` walks a copy of `children`; leaf nodes
define no iteration, so Python raises TypeError. -/
def DevNode.kidsE : DevNode → Except PyErr (List DevNode)
| .branch _ _ _ cs => .ok cs
| .target _ _ _ _ cs => .ok cs
| .leaf _ _ => .error .typeError
| .simple _ _ _ _ => .error .typeError

/-- Concatenation of a list of strings, left to right. -/
def sjoin : List String → String
| [] => ""
| s :: rest => s ++ sjoin rest

/-- `Node._xml_tag`: wrap a body and optional attributes in a tag carrying the
node name; a missing or empty body yields a self-closing tag.  A present
attribute mapping contributes a leading space even when empty. -/
def xmlTag (name : String) (body : Option String)
    (attributes : Option (List (String × String))) : String :=
  let attrText :=
    match attributes with
    | none => ""
    | some l => " " ++ String.intercalate " "
        (l.map (fun p => p.1 ++ "=\"" ++ p.2 ++ "\""))
  match body with
  | some b =>
    if 0 < b.length then "<" ++ name ++ attrText ++ ">" ++ b ++ "</" ++ name ++ ">"
    else "<" ++ name ++ attrText ++ " />"
  | none => "<" ++ name ++ attrText ++ " />"

mutual
/-- Modelled from the spec, section 6: the external XML facility re-serializes
a single element with its subtree verbatim (`ET.tostring`); as in ElementTree
the serialization of an element also carries the tail text that follows it. -/
def tostring : XElem → String
| .mk tag ats txt cs tl =>
  let attrText := sjoin (ats.map (fun p => " " ++ p.1 ++ "=\"" ++ p.2 ++ "\""))
  let inner := txt.getD "" ++ tostringList cs
  (if inner = "" then "<" ++ tag ++ attrText ++ "/>"
   else "<" ++ tag ++ attrText ++ ">" ++ inner ++ "</" ++ tag ++ ">") ++ tl.getD ""

def tostringList : List XElem → String
| [] => ""
| c :: rest => tostring c ++ tostringList rest
end

/-- `SimpleLeafNode.toxml`, instrumented with the number of accessor
invocations.  The source calls the accessor once to inspect the shape of its
result and, when that result is not a bare string, calls it a second time and
destructures the second result as (body, attributes); a bare-string second
result makes Python fail (AttributeError when the string has length 2 and is
unpacked into two characters, ValueError otherwise). -/
def simpleLeafRender (name : String) (accessor : Option (Nat → AVal)) :
    Except PyErr String × Nat :=
  match accessor with
  | none => (.ok (xmlTag name none none), 0)
  | some f =>
    match f 0 with
    | .str s => (.ok (xmlTag name (some s) none), 1)
    | .pair _ _ =>
      match f 1 with
      | .pair b a => (.ok (xmlTag name b a), 2)
      | .str s => (.error (if s.length = 2 then .attributeError else .valueError), 2)

mutual
/-- `toxml` by node kind: branch-like nodes join the renderings of their
children inside their own tag, a plain leaf renders a self-closing tag and a
simple leaf defers to its accessor. -/
def DevNode.toxml : DevNode → Except PyErr String
| .branch n _ _ cs =>
  match toxmlList cs "" with
  | .error e => .error e
  | .ok body => .ok (xmlTag n (some body) none)
| .target n _ _ _ cs =>
  match toxmlList cs "" with
  | .error e => .error e
  | .ok body => .ok (xmlTag n (some body) none)
| .leaf n _ => .ok (xmlTag n none none)
| .simple n _ acc _ => (simpleLeafRender n acc).1

def toxmlList : List DevNode → String → Except PyErr String
| [], acc => .ok acc
| c :: rest, acc =>
  match DevNode.toxml c with
  | .error e => .error e
  | .ok s => toxmlList rest (acc ++ s)
end

/-- The full legal (attribute-name, value) set of a candidate node: the cross
product of its declared attributes with each attribute value list.  An
attribute whose value list is absent makes the Python iteration
`for value in attribute.values` raise TypeError. -/
def legalSetE : List RAttr → Except PyErr (List (String × String))
| [] => .ok []
| a :: rest =>
  match a.values with
  | none => .error .typeError
  | some vs =>
    match legalSetE rest with
    | .error e => .error e
    | .ok l => .ok (vs.map (fun v => (a.name, v.name)) ++ l)

/-- The level test of `BranchNode._tree_match_helper`: the attribute pairs of
the request element must all lie in the candidate legal set and the candidate
name must equal the request tag. -/
def levelTest (x : XElem) (d : DevNode) : Except PyErr Bool :=
  match legalSetE d.attrs with
  | .error e => .error e
  | .ok legal => .ok (x.attribs.all (fun p => legal.contains p) && (d.name == x.tag))

mutual
/-- `BranchNode._tree_match_helper`: on a level match, a request element with
no children resolves to the candidate itself; with exactly one child the
matcher recurses into the candidate children; more than one child violates
the `assert` in the source. -/
def treeMatchHelper : XElem → DevNode → Except PyErr (Option DevNode)
| .mk t ats tx xcs tl, d =>
  match levelTest (.mk t ats tx xcs tl) d with
  | .error e => .error e
  | .ok false => .ok none
  | .ok true =>
    match xcs with
    | [] => .ok (some d)
    | [x0] =>
      match d.kidsE with
      | .error e => .error e
      | .ok cs => treeMatchL x0 cs
    | _ => .error .assertionError

/-- The candidate loop shared by `_tree_match` and the recursion inside
`_tree_match_helper`: try candidates in declaration order, return the first
successful resolution, propagate a raised error. -/
def treeMatchL : XElem → List DevNode → Except PyErr (Option DevNode)
| _, [] => .ok none
| x, c :: rest =>
  match treeMatchHelper x c with
  | .error e => .error e
  | .ok (some r) => .ok (some r)
  | .ok none => treeMatchL x rest
end

/-- `BranchNode._tree_match`: run the candidate loop over the children of the
device node. -/
def treeMatch (x : XElem) (d : DevNode) : Except PyErr (Option DevNode) :=
  match d.kidsE with
  | .error e => .error e
  | .ok cs => treeMatchL x cs

/-- `BranchNode.get`: the first child whose name equals the requested name. -/
def nodeGet (cs : List DevNode) (tag : String) : Option DevNode :=
  match cs with
  | [] => none
  | c :: rest => if c.name == tag then some c else nodeGet rest tag

/-- Payload reconstruction on the callback path of `TargetNode.handle_xml`:
the text before the first child, then each child serialized by the external
facility, then the tail of the request element itself.  A missing text or
tail is Python None and string concatenation with None raises TypeError. -/
def buildPayload (x : XElem) : Except PyErr String :=
  match x.text with
  | none => .error .typeError
  | some t =>
    match x.tail with
    | none => .error .typeError
    | some tl => .ok (t ++ sjoin (x.children.map tostring) ++ tl)

/-- Accumulation loop of `BranchNode.handle_xml` over the request children:
resolve each child through the matcher, append the rendering of a resolved
node, append nothing on no match, propagate a raised error. -/
def branchLoop (b : DevNode) (acc : String) : List XElem → Except PyErr String
| [] => .ok acc
| c :: rest =>
  match treeMatch c b with
  | .error e => .error e
  | .ok none => branchLoop b acc rest
  | .ok (some nd) =>
    match DevNode.toxml nd with
    | .error e => .error e
    | .ok s => branchLoop b (acc ++ s) rest

mutual
/-- `handle_xml` by node kind.  A branch with a childless request echoes its
whole subtree, otherwise it dispatches each request child through the
matcher.  A target with a callback hands the reconstructed payload to the
callback and returns its result; without a callback it dispatches each
request child to the schema child of the same name.  Leaf-like nodes answer
with their own rendering (`Node.handle_xml` falls back to `toxml`). -/
def handleXml : DevNode → XElem → Except PyErr String
| .branch n a m cs, x =>
  if (XElem.children x).isEmpty then DevNode.toxml (.branch n a m cs)
  else
    match branchLoop (.branch n a m cs) "" (XElem.children x) with
    | .error e => .error e
    | .ok out => .ok (xmlTag n (some out) none)
| .target n dsc a cb cs, .mk t ats tx xcs tl =>
  match cb with
  | some f =>
    match buildPayload (.mk t ats tx xcs tl) with
    | .error e => .error e
    | .ok payload => .ok (f payload)
  | none => targetLoop cs "" xcs
| .leaf n a, _ => DevNode.toxml (.leaf n a)
| .simple n a acc st, _ => DevNode.toxml (.simple n a acc st)

/-- Accumulation loop of the structural path of `TargetNode.handle_xml`:
look up each request child by name among the schema children, recursively
dispatch on a hit and silently skip a miss. -/
def targetLoop : List DevNode → String → List XElem → Except PyErr String
| _, acc, [] => .ok acc
| cs, acc, xc :: rest =>
  match nodeGet cs (XElem.tag xc) with
  | some child =>
    match handleXml child xc with
    | .error e => .error e
    | .ok s => targetLoop cs (acc ++ s) rest
  | none => targetLoop cs acc rest
end

/-- `_dict2xmlattr` / the attribute join used by the descriptor builder. -/
def attrString (l : List (String × String)) : String :=
  String.intercalate " " (l.map (fun p => p.1 ++ "=\"" ++ p.2 ++ "\""))

/-- `_get_attr_desc_xml`: nested attribute declarations of a node. -/
def getAttrDescXml (attrs : List RAttr) : String :=
  sjoin (attrs.map (fun a =>
    "<attr name=\"" ++ a.name ++ "\" desc=\"" ++ a.desc ++ "\"" ++
    (match a.values with
     | none => " />"
     | some vs =>
       ">" ++ sjoin (vs.map (fun v =>
         "<value value=\"" ++ v.name ++ "\" desc=\"" ++ v.desc ++
         "\"  dscr_avail=\"true\" />")) ++ "</attr>")))

/-- `_get_error_desc_xml`: nested error declarations of a node. -/
def getErrorDescXml (errors : List (String × String)) : String :=
  sjoin (errors.map (fun e =>
    "<error_descriptor id=\"" ++ e.1 ++ "\" desc=\"" ++ e.2 ++ "\" />"))

mutual
/-- `to_descriptor_xml` by node kind.  On a branch whose dscr_avail flag is
set the source reads the undefined attribute `desr_avail` (line 240), so
Python raises AttributeError before anything is rendered; dictionary keys
are modelled in insertion order.  Leaf-like nodes render with their default
class metadata (description falling back to the name, type string, access
read_only); a target renders as a named target `attr` element wrapping the
descriptors of its children. -/
def toDescriptorXml : DevNode → Except PyErr String
| .branch n a m cs =>
  match m.dscrAvail with
  | some _ => .error .attributeError
  | none =>
    let base := [("element", n), ("desc", m.desc)]
      ++ (match m.access with | some ac => [("access", ac)] | none => [])
      ++ (match m.dformat with | some fo => [("format", fo)] | none => [])
    match toDescriptorXmlList cs with
    | .error e => .error e
    | .ok childXml =>
      .ok ("<descriptor " ++ attrString base ++ ">" ++ getAttrDescXml a
        ++ getErrorDescXml m.errors ++ childXml ++ "</descriptor>")
| .target n dsc _ _ cs =>
  match toDescriptorXmlList cs with
  | .error e => .error e
  | .ok childXml =>
    .ok ("<attr name=\"target\" desc=\"" ++ dsc ++ "\" value=\"" ++ n ++ "\">"
      ++ childXml ++ "</attr>")
| .leaf n a =>
  .ok ("<element "
    ++ attrString [("desc", n), ("name", n), ("type", "string"), ("access", "read_only")]
    ++ ">" ++ getAttrDescXml a ++ "</element>")
| .simple n a _ _ =>
  .ok ("<element "
    ++ attrString [("desc", n), ("name", n), ("type", "string"), ("access", "read_only")]
    ++ ">" ++ getAttrDescXml a ++ "</element>")

def toDescriptorXmlList : List DevNode → Except PyErr String
| [] => .ok ""
| c :: rest =>
  match toDescriptorXml c with
  | .error e => .error e
  | .ok s =>
    match toDescriptorXmlList rest with
    | .error e => .error e
    | .ok ss => .ok (s ++ ss)
end

/-- Per-child computations gathered left to right, stopping at the first
raised error. -/
def collectE (f : XElem → Except PyErr String) : List XElem → Except PyErr (List String)
| [] => .ok []
| c :: rest =>
  match f c with
  | .error e => .error e
  | .ok s =>
    match collectE f rest with
    | .error e => .error e
    | .ok ss => .ok (s :: ss)

/-- The contribution of one request child in `BranchNode.handle_xml`: the
rendering of the resolved node, or the empty string when the matcher finds
no node. -/
def branchChild (b : DevNode) (c : XElem) : Except PyErr String :=
  match treeMatch c b with
  | .error e => .error e
  | .ok (some nd) => DevNode.toxml nd
  | .ok none => .ok ""

/-- The contribution of one request child in the structural path of
`TargetNode.handle_xml`: recursive dispatch on the schema child of the same
name, or the empty string when no such child exists. -/
def targetChild (cs : List DevNode) (xc : XElem) : Except PyErr String :=
  match nodeGet cs xc.tag with
  | some child => handleXml child xc
  | none => .ok ""

theorem branchLoop_eq (b : DevNode) (l : List XElem) (acc : String) :
    branchLoop b acc l =
      match collectE (branchChild b) l with
      | .error e => .error e
      | .ok parts => .ok (acc ++ sjoin parts) := by
  induction l generalizing acc with
  | nil => simp [branchLoop, collectE, sjoin, String.append_empty]
  | cons c rest ih =>
    cases htm : treeMatch c b with
    | error e => simp [branchLoop, collectE, branchChild, htm]
    | ok m =>
      cases m with
      | none =>
        simp only [branchLoop, collectE, branchChild, htm, ih]
        cases collectE (branchChild b) rest with
        | error e => simp
        | ok ps => simp [sjoin, String.empty_append]
      | some nd =>
        cases htox : DevNode.toxml nd with
        | error e => simp [branchLoop, collectE, branchChild, htm, htox]
        | ok s =>
          simp only [branchLoop, collectE, branchChild, htm, htox, ih]
          cases collectE (branchChild b) rest with
          | error e => simp
          | ok ps => simp [sjoin, String.append_assoc]

theorem targetLoop_eq (cs : List DevNode) (l : List XElem) (acc : String) :
    targetLoop cs acc l =
      match collectE (targetChild cs) l with
      | .error e => .error e
      | .ok parts => .ok (acc ++ sjoin parts) := by
  induction l generalizing acc with
  | nil => simp [targetLoop, collectE, sjoin, String.append_empty]
  | cons xc rest ih =>
    cases hget : nodeGet cs xc.tag with
    | none =>
      simp only [targetLoop, collectE, targetChild, hget, ih]
      cases collectE (targetChild cs) rest with
      | error e => simp
      | ok ps => simp [sjoin, String.empty_append]
    | some child =>
      cases hh : handleXml child xc with
      | error e => simp [targetLoop, collectE, targetChild, hget, hh]
      | ok s =>
        simp only [targetLoop, collectE, targetChild, hget, hh, ih]
        cases collectE (targetChild cs) rest with
        | error e => simp
        | ok ps => simp [sjoin, String.append_assoc]

/-- A boolean containment test on attribute pairs coincides with list
membership. -/
theorem contains_pair_mem (l : List (String × String)) (p : String × String) :
    l.contains p = true ↔ p ∈ l := by
  unfold List.contains
  exact List.elem_iff

/-- Default BranchNode metadata: empty description, no optional descriptor
attributes, empty error catalog. -/
def defMeta : BMeta := ⟨"", none, none, none, []⟩

/-- A schema node named port with declared attribute id whose legal values
are 1 and 2. -/
def portNode : DevNode :=
  .leaf "port" [⟨"id", "", some [⟨"1", ""⟩, ⟨"2", ""⟩]⟩]

/-- A branch containing only `portNode`. -/
def portBranch : DevNode := .branch "interfaces" [] defMeta [portNode]

/-- A childless request element for tag port carrying an id attribute. -/
def portReq (v : String) : XElem := .mk "port" [("id", v)] none [] none

/-- A childless request element with a different tag and a legal id value. -/
def otherReq : XElem := .mk "other" [("id", "1")] none [] none

/-- C2: the level test of the attribute matcher succeeds iff the candidate
name equals the request tag and every attribute pair on the request element
lies in the candidate legal set (the cross product computed by `legalSetE`);
with node N named port whose id attribute allows 1 and 2, the request
port id=1 resolves to N, port id=3 resolves to no match and other id=1
never resolves to N. -/
theorem attribute_level_match_iff :
    (∀ (x : XElem) (d : DevNode) (legal : List (String × String)),
        legalSetE d.attrs = .ok legal →
        (levelTest x d = .ok true ↔
          (d.name = x.tag ∧ ∀ p ∈ x.attribs, p ∈ legal)))
    ∧ treeMatch (portReq "1") portBranch = .ok (some portNode)
    ∧ treeMatch (portReq "3") portBranch = .ok none
    ∧ treeMatch otherReq portBranch = .ok none := by
  refine ⟨?_, ?_, ?_, ?_⟩
  · intro x d legal hleg
    simp only [levelTest, hleg]
    constructor
    · intro h
      have h2 : (x.attribs.all (fun p => legal.contains p) && (d.name == x.tag)) = true :=
        Except.ok.inj h
      rw [Bool.and_eq_true] at h2
      obtain ⟨hall, hname⟩ := h2
      refine ⟨beq_iff_eq.mp hname, ?_⟩
      intro p hp
      exact (contains_pair_mem legal p).mp ((List.all_eq_true.mp hall) p hp)
    · rintro ⟨hname, hsub⟩
      have hall : x.attribs.all (fun p => legal.contains p) = true :=
        List.all_eq_true.mpr (fun p hp => (contains_pair_mem legal p).mpr (hsub p hp))
      rw [hall, hname]
      simp
  · simp [treeMatch, treeMatchL, treeMatchHelper, levelTest, legalSetE,
      DevNode.kidsE, DevNode.attrs, DevNode.name, XElem.attribs, XElem.tag,
      XElem.children, portBranch, portNode, portReq]
  · simp [treeMatch, treeMatchL, treeMatchHelper, levelTest, legalSetE,
      DevNode.kidsE, DevNode.attrs, DevNode.name, XElem.attribs, XElem.tag,
      XElem.children, portBranch, portNode, portReq]
  · simp [treeMatch, treeMatchL, treeMatchHelper, levelTest, legalSetE,
      DevNode.kidsE, DevNode.attrs, DevNode.name, XElem.attribs, XElem.tag,
      XElem.children, portBranch, portNode, otherReq]

/-- C2 witness: the level test succeeds concretely for the port id=1 request
against the port node. -/
theorem attribute_level_match_iff_witness :
    levelTest (portReq "1") portNode = .ok true :=
  (attribute_level_match_iff.1 (portReq "1") portNode
      [("id", "1"), ("id", "2")] rfl).mpr
    ⟨rfl, by decide⟩

/-- C1: `BranchNode.handle_xml` echoes the whole branch for a childless
request; otherwise it resolves each request child through the attribute
matcher, contributes the rendering of the resolved node or the empty string
when the matcher finds none, and wraps the concatenation, in request order,
in the tag of the branch. -/
theorem branch_handle_xml_dispatch (n : String) (a : List RAttr) (m : BMeta)
    (cs : List DevNode) (r : XElem) :
    (r.children = [] →
      handleXml (.branch n a m cs) r = DevNode.toxml (.branch n a m cs))
    ∧ (r.children ≠ [] →
      handleXml (.branch n a m cs) r =
        match collectE (branchChild (.branch n a m cs)) r.children with
        | .error e => .error e
        | .ok parts => .ok (xmlTag n (some (sjoin parts)) none)) := by
  cases r with
  | mk t ats tx xcs tl =>
    simp only [XElem.children]
    constructor
    · intro h
      subst h
      simp [handleXml, XElem.children]
    · intro h
      have hne : xcs.isEmpty = false := by
        cases xcs with
        | nil => exact absurd rfl h
        | cons c ctl => rfl
      simp only [handleXml, XElem.children, hne, Bool.false_eq_true, if_false]
      rw [branchLoop_eq]
      cases collectE (branchChild (.branch n a m cs)) xcs with
      | error e => rfl
      | ok ps => simp [String.empty_append]

/-- A one-leaf branch used to exercise branch dispatch concretely. -/
def c1Leaf : DevNode := .leaf "item" []

/-- A branch named box containing one leaf named item. -/
def c1Branch : DevNode := .branch "box" [] defMeta [c1Leaf]

/-- C1 witness: concretely, a childless request echoes the branch and a
request naming the item child receives the wrapped rendering. -/
theorem branch_handle_xml_dispatch_witness :
    handleXml c1Branch (.mk "box" [] none [] none) = DevNode.toxml c1Branch
    ∧ handleXml c1Branch (.mk "box" [] none [.mk "item" [] none [] none] none)
        = .ok "<box><item /></box>" := by
  constructor
  · exact (branch_handle_xml_dispatch "box" [] defMeta [c1Leaf]
      (.mk "box" [] none [] none)).1 rfl
  · have h := (branch_handle_xml_dispatch "box" [] defMeta [c1Leaf]
      (.mk "box" [] none [.mk "item" [] none [] none] none)).2
      (by simp [XElem.children])
    simp only [c1Branch]
    rw [h]
    simp [collectE, branchChild, treeMatch, treeMatchL, treeMatchHelper, levelTest,
      legalSetE, DevNode.kidsE, DevNode.attrs, DevNode.name, XElem.attribs,
      XElem.tag, XElem.children, c1Leaf, DevNode.toxml, toxmlList, xmlTag, sjoin]
    decide

/-- C3: with a callback set, `TargetNode.handle_xml` hands the callback one
string made of the leading text of the request element, the verbatim
serialization of each immediate child in order, and the trailing tail text,
and returns the callback result unchanged, whatever children the target
declares. -/
theorem target_callback_payload (n dsc : String) (a : List RAttr)
    (cb : String → String) (cs : List DevNode) (r : XElem) (pre post : String)
    (htext : r.text = some pre) (htail : r.tail = some post) :
    handleXml (.target n dsc a (some cb) cs) r
      = .ok (cb (pre ++ sjoin (r.children.map tostring) ++ post)) := by
  cases r with
  | mk t ats tx xcs tl =>
    simp only [XElem.text] at htext
    simp only [XElem.tail] at htail
    subst htext htail
    simp [handleXml, buildPayload, XElem.text, XElem.tail, XElem.children]

/-- A request subtree with leading text pre, one child p and trailing text
post. -/
def preReq : XElem := .mk "t" [] (some "pre") [.mk "p" [] none [] none] (some "post")

/-- C3 witness: the identity callback concretely receives and returns
exactly the reconstructed payload. -/
theorem target_callback_payload_witness :
    handleXml (.target "ping" "" [] (some (fun s => s)) [.leaf "arg" []]) preReq
      = .ok "pre<p/>post" := by
  have h := target_callback_payload "ping" "" [] (fun s => s) [.leaf "arg" []]
    preReq "pre" "post" rfl rfl
  rw [h]
  rfl

/-- C7: without a callback, `TargetNode.handle_xml` processes the request
children in request order, dispatching each recursively to the schema child
of the same name and silently skipping unmatched tags, and answers with the
concatenation of the results. -/
theorem target_structural_dispatch (n dsc : String) (a : List RAttr)
    (cs : List DevNode) (r : XElem) :
    handleXml (.target n dsc a none cs) r =
      match collectE (targetChild cs) r.children with
      | .error e => .error e
      | .ok parts => .ok (sjoin parts) := by
  cases r with
  | mk t ats tx xcs tl =>
    simp only [handleXml, XElem.children]
    rw [targetLoop_eq]
    cases collectE (targetChild cs) xcs with
    | error e => rfl
    | ok ps => simp [String.empty_append]

/-- Two ambiguous sibling candidates named a: the first contains only a
child named x, the second only a child named y. -/
def innerX : DevNode := .branch "x" [] defMeta []

/-- The y child of the second ambiguous candidate. -/
def innerY : DevNode := .branch "y" [] defMeta []

/-- First candidate named a, containing only innerX. -/
def ambFirst : DevNode := .branch "a" [] defMeta [innerX]

/-- Second candidate named a, containing only innerY. -/
def ambSecond : DevNode := .branch "a" [] defMeta [innerY]

/-- A branch holding both ambiguous candidates in declaration order. -/
def ambRoot : DevNode := .branch "root" [] defMeta [ambFirst, ambSecond]

/-- The request a/y: it level-matches both candidates but only the second
candidate has a child matching the nested element. -/
def ambReq : XElem := .mk "a" [] none [.mk "y" [] none [] none] none

/-- C4 counterexample: the first candidate passes the level test for the
request, the request has exactly one nested child and no child of that
candidate matches it, so by the claim the whole lookup at this branch would
return absent with no backtracking; the code instead moves on to the second
candidate and resolves the request to its descendant. -/
theorem tree_match_tries_later_candidates :
    levelTest ambReq ambFirst = .ok true
    ∧ ambReq.children.length = 1
    ∧ treeMatchL (.mk "y" [] none [] none) [innerX] = .ok none
    ∧ treeMatchHelper ambReq ambFirst = .ok none
    ∧ treeMatch ambReq ambRoot = .ok (some innerY) := by
  refine ⟨rfl, rfl, ?_, ?_, ?_⟩
  · simp [treeMatchL, treeMatchHelper, levelTest, legalSetE, DevNode.attrs,
      DevNode.name, XElem.attribs, XElem.tag, innerX]
  · simp [treeMatchHelper, treeMatchL, levelTest, legalSetE, DevNode.kidsE,
      DevNode.attrs, DevNode.name, XElem.attribs, XElem.tag, ambFirst, ambReq,
      innerX]
  · simp [treeMatch, treeMatchL, treeMatchHelper, levelTest, legalSetE,
      DevNode.kidsE, DevNode.attrs, DevNode.name, XElem.attribs, XElem.tag,
      ambRoot, ambFirst, ambSecond, ambReq, innerX, innerY]

/-- C4 (amended): when a candidate passes the level test and the request has
exactly one nested child, the matcher recurses into the candidate children;
a candidate whose recursion finds no match yields no match for that
candidate and the search continues with the following candidates in
declaration order; the first candidate producing a full match wins. -/
theorem tree_match_recursion_continues :
    (∀ (x : XElem) (d : DevNode) (x0 : XElem) (cs : List DevNode),
        levelTest x d = .ok true → x.children = [x0] → d.kidsE = .ok cs →
        treeMatchHelper x d = treeMatchL x0 cs)
    ∧ (∀ (x : XElem) (c : DevNode) (rest : List DevNode),
        treeMatchHelper x c = .ok none →
        treeMatchL x (c :: rest) = treeMatchL x rest)
    ∧ (∀ (x : XElem) (c : DevNode) (rest : List DevNode) (r : DevNode),
        treeMatchHelper x c = .ok (some r) →
        treeMatchL x (c :: rest) = .ok (some r)) := by
  refine ⟨?_, ?_, ?_⟩
  · intro x d x0 cs hl hch hk
    cases x with
    | mk t ats tx xcs tl =>
      simp only [XElem.children] at hch
      subst hch
      simp [treeMatchHelper, hl, hk]
  · intro x c rest hc
    simp [treeMatchL, hc]
  · intro x c rest r hc
    simp [treeMatchL, hc]

/-- C4 amended witness: concretely the failed first candidate is skipped and
the second level-matched candidate is entered. -/
theorem tree_match_recursion_continues_witness :
    treeMatchL ambReq [ambFirst, ambSecond] = treeMatchL ambReq [ambSecond]
    ∧ treeMatchHelper ambReq ambSecond = treeMatchL (.mk "y" [] none [] none) [innerY] := by
  constructor
  · exact tree_match_recursion_continues.2.1 ambReq ambFirst [ambSecond]
      (by simp [treeMatchHelper, treeMatchL, levelTest, legalSetE, DevNode.kidsE,
        DevNode.attrs, DevNode.name, XElem.attribs, XElem.tag, ambFirst, ambReq,
        innerX])
  · exact tree_match_recursion_continues.1 ambReq ambSecond (.mk "y" [] none [] none)
      [innerY] rfl rfl rfl

/-- C5: a request element with more than one nested child at an addressing
position (a level-matched candidate) violates the assert in the source and
the AssertionError propagates out of the whole lookup, rather than being a
silent skip or a plain no-match. -/
theorem multi_child_qualifier_fatal (x : XElem) (d : DevNode)
    (hl : levelTest x d = .ok true) (hn : 2 ≤ x.children.length) :
    treeMatchHelper x d = .error .assertionError
    ∧ ∀ (n : String) (a : List RAttr) (m : BMeta) (pre post : List DevNode),
        (∀ c ∈ pre, treeMatchHelper x c = .ok none) →
        treeMatch x (.branch n a m (pre ++ d :: post)) = .error .assertionError := by
  have hh : treeMatchHelper x d = .error .assertionError := by
    cases x with
    | mk t ats tx xcs tl =>
      simp only [XElem.children] at hn
      cases xcs with
      | nil => simp at hn
      | cons c1 xtl =>
        cases xtl with
        | nil => simp at hn
        | cons c2 rest => simp [treeMatchHelper, hl]
  refine ⟨hh, ?_⟩
  intro n a m pre post hpre
  have hloop : ∀ (l : List DevNode), (∀ c ∈ l, treeMatchHelper x c = .ok none) →
      treeMatchL x (l ++ d :: post) = .error .assertionError := by
    intro l
    induction l with
    | nil => intro _; simp [treeMatchL, hh]
    | cons c rest ih =>
      intro hall
      have hc : treeMatchHelper x c = .ok none := hall c (by simp)
      have hrest := ih (fun c2 h2 => hall c2 (by simp [h2]))
      simp [treeMatchL, hc, hrest]
  simp only [treeMatch, DevNode.kidsE]
  exact hloop pre hpre

/-- A request element with two nested children at an addressing position. -/
def twoChildReq : XElem :=
  .mk "a" [] none [.mk "b" [] none [] none, .mk "c" [] none [] none] none

/-- C5 witness: the two-child request concretely aborts both the helper and
the enclosing lookup with the assertion failure. -/
theorem multi_child_qualifier_fatal_witness :
    treeMatchHelper twoChildReq ambFirst = .error .assertionError
    ∧ treeMatch twoChildReq (.branch "root" [] defMeta [ambFirst])
        = .error .assertionError := by
  have h := multi_child_qualifier_fatal twoChildReq ambFirst rfl (by decide)
  exact ⟨h.1, h.2 "root" [] defMeta [] [] (by simp)⟩

/-- C6: a simple leaf without accessor renders a self-closing bare tag; an
accessor returning a bare string renders that string as the body with no
attributes; an accessor returning a (body, attributes) pair renders that
body with exactly those attributes; the rendering never depends on the
setter. -/
theorem simple_leaf_toxml_shapes :
    (∀ (n : String) (a : List RAttr) (st : Option SetterFn),
        DevNode.toxml (.simple n a none st) = .ok ("<" ++ n ++ " />"))
    ∧ (∀ (n : String) (a : List RAttr) (st : Option SetterFn)
        (f : Nat → AVal) (s : String), f 0 = .str s →
        DevNode.toxml (.simple n a (some f) st) = .ok (xmlTag n (some s) none))
    ∧ (∀ (n : String) (a : List RAttr) (st : Option SetterFn) (f : Nat → AVal)
        (b : Option String) (ats : Option (List (String × String))),
        (∀ k, f k = .pair b ats) →
        DevNode.toxml (.simple n a (some f) st) = .ok (xmlTag n b ats))
    ∧ (∀ (n : String) (a : List RAttr) (acc : Option (Nat → AVal))
        (st1 st2 : Option SetterFn),
        DevNode.toxml (.simple n a acc st1) = DevNode.toxml (.simple n a acc st2)) := by
  refine ⟨?_, ?_, ?_, ?_⟩
  · intro n a st
    simp [DevNode.toxml, simpleLeafRender, xmlTag, String.append_empty]
  · intro n a st f s h
    simp [DevNode.toxml, simpleLeafRender, h]
  · intro n a st f b ats h
    simp [DevNode.toxml, simpleLeafRender, h 0, h 1]
  · intro n a acc st1 st2
    rfl

/-- C6 witness: the two documented accessor shapes render concretely as the
spec examples state. -/
theorem simple_leaf_toxml_shapes_witness :
    DevNode.toxml (.simple "temp" [] (some (fun _ => .str "42")) none)
      = .ok "<temp>42</temp>"
    ∧ DevNode.toxml (.simple "temp" []
        (some (fun _ => .pair (some "42") (some [("unit", "C")]))) none)
      = .ok "<temp unit=\"C\">42</temp>" := by
  constructor
  · rw [simple_leaf_toxml_shapes.2.1 "temp" [] none (fun _ => .str "42") "42" rfl]
    rfl
  · rw [simple_leaf_toxml_shapes.2.2.1 "temp" [] none
      (fun _ => .pair (some "42") (some [("unit", "C")])) (some "42")
      (some [("unit", "C")]) (fun k => rfl)]
    rfl

/-- A branch named net with the availability flag set. -/
def availBranch : DevNode := .branch "net" [] ⟨"Network", some "true", none, none, []⟩ []

/-- C8: on a branch with the availability flag set, to_descriptor_xml reads
the undefined attribute desr_avail (a typo for dscr_avail at line 240 of the
source), so the call raises AttributeError instead of returning a descriptor
element carrying the flag. -/
theorem branch_descriptor_dscr_avail_bug :
    toDescriptorXml availBranch = .error .attributeError := rfl

/-- C9: when the first accessor call does not return a bare string, a single
render invokes the accessor exactly twice and the rendered body and
attributes come from the second invocation, not the first. -/
theorem accessor_double_invocation (n : String) (f : Nat → AVal)
    (b : Option String) (ats : Option (List (String × String)))
    (h : f 0 = .pair b ats) :
    (simpleLeafRender n (some f)).2 = 2
    ∧ (simpleLeafRender n (some f)).1 =
        (match f 1 with
         | .pair b1 a1 => .ok (xmlTag n b1 a1)
         | .str s => .error (if s.length = 2 then .attributeError else .valueError))
    ∧ ∀ (a : List RAttr) (st : Option SetterFn),
        DevNode.toxml (.simple n a (some f) st) = (simpleLeafRender n (some f)).1 := by
  refine ⟨?_, ?_, ?_⟩
  · cases hf1 : f 1 <;> simp [simpleLeafRender, h, hf1]
  · cases hf1 : f 1 <;> simp [simpleLeafRender, h, hf1]
  · intro a st
    rfl

/-- An accessor whose two successive invocations return different pairs. -/
def flipAccessor : Nat → AVal :=
  fun k => if k = 0 then .pair (some "first") none else .pair (some "second") none

/-- C9 witness: with an accessor whose calls differ, the render counts two
invocations and shows the body of the second one. -/
theorem accessor_double_invocation_witness :
    (simpleLeafRender "v" (some flipAccessor)).2 = 2
    ∧ (simpleLeafRender "v" (some flipAccessor)).1 = .ok "<v>second</v>" := by
  have h := accessor_double_invocation "v" flipAccessor (some "first") none rfl
  refine ⟨h.1, ?_⟩
  rw [h.2.1]
  rfl

/-- C10: on the callback path the leading text and the tail text of the
request element must both be present strings; if either is Python None the
concatenation building the payload raises TypeError instead of treating the
missing text as empty. -/
theorem callback_payload_requires_text_tail (n dsc : String) (a : List RAttr)
    (cb : String → String) (cs : List DevNode) (r : XElem)
    (h : r.text = none ∨ r.tail = none) :
    handleXml (.target n dsc a (some cb) cs) r = .error .typeError := by
  cases r with
  | mk t ats tx xcs tl =>
    simp only [XElem.text, XElem.tail] at h
    cases h with
    | inl htx =>
      subst htx
      simp [handleXml, buildPayload, XElem.text, XElem.tail]
    | inr htl =>
      subst htl
      cases tx with
      | none => simp [handleXml, buildPayload, XElem.text, XElem.tail]
      | some s => simp [handleXml, buildPayload, XElem.text, XElem.tail]

/-- The request t with one child p and no leading text. -/
def noTextReq : XElem := .mk "t" [] none [.mk "p" [] none [] none] none

/-- C10 witness: the callback path concretely fails with TypeError on a
request whose leading text is absent. -/
theorem callback_payload_requires_text_tail_witness :
    handleXml (.target "go" "" [] (some (fun s => s)) []) noTextReq
      = .error .typeError :=
  callback_payload_requires_text_tail "go" "" [] (fun s => s) [] noTextReq
    (Or.inl rfl)

end RCI
